import Mathlib

/-!
Verification of `prepare_datasets.py`, a script that normalizes three
anomaly-detection datasets (NAB streaming metrics, Yahoo S5 time series,
KDD'99 network intrusion) into a canonical tabular shape with a binary
`is_anomaly` column.

The script manipulates pandas DataFrames loaded from CSV files.  We embed a
DataFrame as an ordered list of column names plus a list of rows, each row a
list of cells.  A cell is either a number (pandas numeric dtype) or a string
(pandas object dtype): pandas gives a CSV column a numeric dtype exactly when
every field of the column parses as a number, mirrored below by
`DataFrame.isNumericAt`.  File-system interaction (directory existence checks,
file discovery, writing the output CSV) is embedded by passing the located
inputs and existence flags explicitly and by returning a `PipelineResult`;
`main` threads the three per-dataset pipelines over an `Outputs` record whose
fields stand for the three destination files.
-/

/-- A single cell of a loaded table: a number for a cell of a numeric-dtype
column, a string for a cell of an object-dtype column. -/
inductive Value where
  | num (q : ℚ)
  | str (s : String)
deriving DecidableEq

/-- An in-memory table: ordered header plus data rows, as a pandas DataFrame
with the default integer row index (dropped on output by `index=False`). -/
structure DataFrame where
  cols : List String
  rows : List (List Value)
deriving DecidableEq

/-- `df.rename(columns=...)` with a one-entry mapping: every column named
`oldName` is renamed to `newName`; all cell values are untouched. -/
def renameCol (oldName newName : String) (df : DataFrame) : DataFrame :=
  { cols := df.cols.map fun c => if c = oldName then newName else c,
    rows := df.rows }

/-- `pd.concat(tables, ignore_index=True)` in the same-schema case exercised
by `process_yahoo_folder`: all rows of all tables one after the other, in the
given table order, under the first table's header.  `ignore_index=True`
renumbers the rows contiguously, which the list representation makes
implicit. -/
def concatDFs (dfs : List DataFrame) : DataFrame :=
  { cols := ((dfs.head?).map DataFrame.cols).getD [],
    rows := (dfs.map DataFrame.rows).flatten }

/-- Index of a named column in the header (pandas label lookup on the unique
headers built by this script). -/
def DataFrame.colIdx (df : DataFrame) (name : String) : Nat :=
  df.cols.indexOf name

/-- The NAB transformation (`process_nab_folder` lines 52-53): rename a
column literally named `label` to `is_anomaly` if present, otherwise leave
the table unchanged. -/
def nabTransform (df : DataFrame) : DataFrame :=
  if "label" ∈ df.cols then renameCol "label" "is_anomaly" df else df

/-- The Yahoo transformation (`process_yahoo_folder` lines 76-77): rename a
column named `anomaly` to `is_anomaly` if present, otherwise leave the table
unchanged. -/
def yahooTransform (df : DataFrame) : DataFrame :=
  if "anomaly" ∈ df.cols then renameCol "anomaly" "is_anomaly" df else df

/-- The fixed 42-name KDD'99 schema (41 feature names plus `label`) assigned
positionally to the headerless raw rows (`process_kdd_folder` lines 95-105). -/
def column_names : List String :=
  ["duration", "protocol_type", "service", "flag", "src_bytes", "dst_bytes", "land",
   "wrong_fragment", "urgent", "hot", "num_failed_logins", "logged_in", "num_compromised",
   "root_shell", "su_attempted", "num_root", "num_file_creations", "num_shells",
   "num_access_files", "num_outbound_cmds", "is_host_login", "is_guest_login", "count",
   "srv_count", "serror_rate", "srv_serror_rate", "rerror_rate", "srv_rerror_rate",
   "same_srv_rate", "diff_srv_rate", "srv_diff_host_rate", "dst_host_count",
   "dst_host_srv_count", "dst_host_same_srv_rate", "dst_host_diff_srv_rate",
   "dst_host_same_src_port_rate", "dst_host_srv_diff_host_rate", "dst_host_serror_rate",
   "dst_host_srv_serror_rate", "dst_host_rerror_rate", "dst_host_srv_rerror_rate", "label"]

/-- The per-cell label derivation of `process_kdd_folder` line 108:
`lambda x: 0 if x == 'normal.' else 1`. -/
def deriveIsAnomaly (v : Value) : Value :=
  if v = Value.str "normal." then Value.num 0 else Value.num 1

/-- `pd.read_csv(target_file, header=None, names=column_names)`: the raw rows
under the fixed positional header. -/
def kddRead (raws : List (List Value)) : DataFrame :=
  { cols := column_names, rows := raws }

/-- `df['is_anomaly'] = df['label'].apply(lambda x: 0 if x == 'normal.' else 1)`:
append a new `is_anomaly` column derived cell-wise from the `label` column. -/
def kddAddAnomaly (df : DataFrame) : DataFrame :=
  { cols := df.cols ++ ["is_anomaly"],
    rows := df.rows.map fun r =>
      r ++ [deriveIsAnomaly (r.getD (df.colIdx "label") (Value.str ""))] }

/-- Whether a cell is numeric. -/
def Value.isNum : Value → Bool
  | num _ => true
  | str _ => false

/-- Whether column `j` has a numeric dtype: every row's cell at position `j`
is a number (pandas infers a numeric dtype for a CSV column exactly when every
field of it parses as a number). -/
def DataFrame.isNumericAt (df : DataFrame) (j : Nat) : Bool :=
  df.rows.all fun r => (r.getD j (Value.str "")).isNum

/-- `df.select_dtypes(include=np.number).columns.tolist()`: the names of the
numeric-dtype columns, in header order. -/
def DataFrame.numericColNames (df : DataFrame) : List String :=
  ((List.range df.cols.length).filter fun j => df.isNumericAt j).map
    fun j => df.cols.getD j ""

/-- `df[names]`: column projection by a list of names (names may repeat, in
which case the projected table repeats the column, as pandas does). -/
def DataFrame.select (df : DataFrame) (names : List String) : DataFrame :=
  { cols := names,
    rows := df.rows.map fun r => names.map fun n => r.getD (df.colIdx n) (Value.str "") }

/-- The whole KDD table transformation of `process_kdd_folder` lines 107-112:
assign the positional header, derive `is_anomaly` from `label`, then project
onto the numeric columns plus `is_anomaly`. -/
def kddTransform (raws : List (List Value)) : DataFrame :=
  let df2 := kddAddAnomaly (kddRead raws)
  df2.select (df2.numericColNames ++ ["is_anomaly"])

/-- Outcome of one dataset pipeline: the two logged-and-return failure paths,
or a table written to the output file. -/
inductive PipelineResult where
  | sourceMissing
  | noFilesFound
  | wrote (df : DataFrame)
deriving DecidableEq

/-- `process_nab_folder`: abort if the input directory is missing; otherwise
`found` is the table of the `Twitter_volume_AMZN.csv` file located by
`os.walk` (`none` when no directory of the tree contains it).  On success the
transformed table is written. -/
def process_nab_folder (dirExists : Bool) (found : Option DataFrame) : PipelineResult :=
  if dirExists = false then PipelineResult.sourceMissing
  else
    match found with
    | some df => PipelineResult.wrote (nabTransform df)
    | none => PipelineResult.noFilesFound

/-- `process_yahoo_folder`: abort if the input directory is missing; glob
`real_*.csv` in the `A1Benchmark` subfolder when it is a directory, in the
input root otherwise (`benchFiles` and `rootFiles` are the tables of the
matched files, in directory-listing order); abort if nothing matched;
otherwise concatenate, rename `anomaly` if present, and write. -/
def process_yahoo_folder (dirExists benchIsDir : Bool)
    (benchFiles rootFiles : List DataFrame) : PipelineResult :=
  if dirExists = false then PipelineResult.sourceMissing
  else
    let files := if benchIsDir then benchFiles else rootFiles
    if files.isEmpty then PipelineResult.noFilesFound
    else PipelineResult.wrote (yahooTransform (concatDFs files))

/-- `process_kdd_folder`: abort if the input directory is missing; abort if
`kddcup.data_10_percent` does not exist in it; otherwise transform its raw
rows and write. -/
def process_kdd_folder (dirExists fileExists : Bool)
    (raws : List (List Value)) : PipelineResult :=
  if dirExists = false then PipelineResult.sourceMissing
  else if fileExists = false then PipelineResult.noFilesFound
  else PipelineResult.wrote (kddTransform raws)

/-- The three output files of `main` (`datasets/NAB_realTweets.csv`,
`datasets/Yahoo_S5_A1.csv`, `datasets/KDD99.csv`); `none` means the file does
not exist. -/
structure Outputs where
  nabOut : Option DataFrame
  yahooOut : Option DataFrame
  kddOut : Option DataFrame
deriving DecidableEq

/-- `df.to_csv(output_file, index=False)` at the end of a pipeline: a
successful pipeline overwrites its output file with the produced table; a
failed pipeline returns early and leaves the file as it was. -/
def writeIfProduced (r : PipelineResult) (prev : Option DataFrame) : Option DataFrame :=
  match r with
  | PipelineResult.wrote df => some df
  | _ => prev

/-- Everything `main` reads from the file system, made explicit: existence
flags and located file contents for the three configured input roots. -/
structure Config where
  nabDirExists : Bool
  nabFound : Option DataFrame
  yahooDirExists : Bool
  yahooBenchIsDir : Bool
  yahooBenchFiles : List DataFrame
  yahooRootFiles : List DataFrame
  kddDirExists : Bool
  kddFileExists : Bool
  kddRaws : List (List Value)
deriving DecidableEq

namespace Script

/-- `main`: run the three pipelines in sequence over the three output files. -/
def main (cfg : Config) (prev : Outputs) : Outputs :=
  { nabOut := writeIfProduced (process_nab_folder cfg.nabDirExists cfg.nabFound) prev.nabOut,
    yahooOut := writeIfProduced
      (process_yahoo_folder cfg.yahooDirExists cfg.yahooBenchIsDir
        cfg.yahooBenchFiles cfg.yahooRootFiles) prev.yahooOut,
    kddOut := writeIfProduced
      (process_kdd_folder cfg.kddDirExists cfg.kddFileExists cfg.kddRaws) prev.kddOut }

end Script

/-- Rendering of one cell for CSV serialization. -/
def Value.render : Value → String
  | num q => toString q
  | str s => s

/-- Serialization of a table to CSV text: header line then one line per row,
no row-index column. -/
def DataFrame.toCsv (df : DataFrame) : String :=
  String.intercalate "\n"
    (String.intercalate "," df.cols ::
      df.rows.map fun r => String.intercalate "," (r.map Value.render))

/-- A well-formed raw KDD row whose label field is `normal.` and whose other
41 fields are numeric. -/
def kddRowNormal : List Value :=
  List.replicate 41 (Value.num 0) ++ [Value.str "normal."]

/-- A well-formed raw KDD row with string values in the three categorical
fields (`protocol_type`, `service`, `flag`) and the label field, numbers
elsewhere, as in the real KDD'99 distribution. -/
def kddRowCat : List Value :=
  [Value.num 0, Value.str "tcp", Value.str "http", Value.str "SF"] ++
    List.replicate 37 (Value.num 0) ++ [Value.str "smurf."]

/-- Two fields equal, appended cell reached: rows of `kddAddAnomaly` are the
raw rows with the derived cell appended, looked up at the `label` position. -/
lemma kddAddAnomaly_rows (raws : List (List Value)) :
    (kddAddAnomaly (kddRead raws)).rows =
      raws.map fun r => r ++ [deriveIsAnomaly (r.getD 41 (Value.str ""))] := by
  have hidx : (kddRead raws).colIdx "label" = 41 := rfl
  unfold kddAddAnomaly
  rw [hidx]
  rfl

/-- The rename rules do not touch the data rows. -/
lemma renameCol_rows (oldName newName : String) (df : DataFrame) :
    (renameCol oldName newName df).rows = df.rows := rfl

lemma yahooTransform_rows (df : DataFrame) : (yahooTransform df).rows = df.rows := by
  unfold yahooTransform
  split <;> rfl

lemma yahooTransform_cols (df : DataFrame) :
    (yahooTransform df).cols =
      if "anomaly" ∈ df.cols then
        df.cols.map fun c => if c = "anomaly" then "is_anomaly" else c
      else df.cols := by
  unfold yahooTransform renameCol
  split <;> simp_all

lemma concatDFs_cols_cons (d : DataFrame) (t : List DataFrame) :
    (concatDFs (d :: t)).cols = d.cols := rfl

lemma concatDFs_rows (dfs : List DataFrame) :
    (concatDFs dfs).rows = (dfs.map DataFrame.rows).flatten := rfl

lemma DataFrame.eq_of_parts (a b : DataFrame) (h1 : a.cols = b.cols)
    (h2 : a.rows = b.rows) : a = b := by
  cases a
  cases b
  simp_all

/-- A column with a non-numeric cell in some row is not a numeric column. -/
lemma kdd_isNumericAt_false (raws : List (List Value)) (i : Nat) (r0 : List Value)
    (hr0 : r0 ∈ raws) (hi : i < r0.length)
    (hv : (r0.getD i (Value.str "")).isNum = false) :
    (kddAddAnomaly (kddRead raws)).isNumericAt i = false := by
  unfold DataFrame.isNumericAt
  rw [kddAddAnomaly_rows]
  cases hall : ((raws.map fun r => r ++ [deriveIsAnomaly (r.getD 41 (Value.str ""))]).all
      fun r => (r.getD i (Value.str "")).isNum) with
  | false => rfl
  | true =>
    exfalso
    have hmem : (r0 ++ [deriveIsAnomaly (r0.getD 41 (Value.str ""))]) ∈
        raws.map fun r => r ++ [deriveIsAnomaly (r.getD 41 (Value.str ""))] :=
      List.mem_map_of_mem _ hr0
    have := List.all_eq_true.mp hall _ hmem
    rw [List.getD_append _ _ _ _ hi] at this
    rw [hv] at this
    exact Bool.false_ne_true this

/-- A name that occurs in the header only at a non-numeric column position is
not among the selected numeric column names. -/
lemma not_mem_numericColNames (df : DataFrame) (i : Nat) (name : String)
    (huniq : ∀ j, j < df.cols.length → df.cols.getD j "" = name → j = i)
    (hnotnum : df.isNumericAt i = false) :
    name ∉ df.numericColNames := by
  intro hmem
  unfold DataFrame.numericColNames at hmem
  rw [List.mem_map] at hmem
  obtain ⟨j, hj, hje⟩ := hmem
  rw [List.mem_filter, List.mem_range] at hj
  have hji := huniq j hj.1 hje
  rw [hji, hnotnum] at hj
  exact Bool.false_ne_true hj.2

/-- C2: in the KDD transformation, for every input row the derived
`is_anomaly` cell (appended at position 42) equals 0 if and only if the row's
raw label field (position 41) is exactly the string `normal.`, and equals 1
for every other label value. -/
theorem kdd_is_anomaly_derivation (raws : List (List Value)) (r : List Value)
    (hr : r ∈ raws) (hlen : r.length = 42) :
    r ++ [deriveIsAnomaly (r.getD 41 (Value.str ""))] ∈ (kddAddAnomaly (kddRead raws)).rows ∧
    ((r ++ [deriveIsAnomaly (r.getD 41 (Value.str ""))]).getD 42 (Value.str "") = Value.num 0 ↔
      r.getD 41 (Value.str "") = Value.str "normal.") ∧
    (r.getD 41 (Value.str "") ≠ Value.str "normal." →
      (r ++ [deriveIsAnomaly (r.getD 41 (Value.str ""))]).getD 42 (Value.str "") = Value.num 1) := by
  have hcell : (r ++ [deriveIsAnomaly (r.getD 41 (Value.str ""))]).getD 42 (Value.str "") =
      deriveIsAnomaly (r.getD 41 (Value.str "")) := by
    rw [List.getD_append_right _ _ _ _ (by rw [hlen])]
    rw [hlen]
    rfl
  refine ⟨?_, ?_, ?_⟩
  · rw [kddAddAnomaly_rows]
    exact List.mem_map_of_mem _ hr
  · rw [hcell]
    unfold deriveIsAnomaly
    by_cases h : r.getD 41 (Value.str "") = Value.str "normal."
    · rw [if_pos h]
      exact iff_of_true rfl h
    · rw [if_neg h]
      exact iff_of_false (by decide) h
  · intro h
    rw [hcell]
    unfold deriveIsAnomaly
    rw [if_neg h]

/-- Witness for C2 at a concrete row whose label field is `normal.`. -/
theorem kdd_is_anomaly_derivation_witness :
    (kddRowNormal ++ [deriveIsAnomaly (kddRowNormal.getD 41 (Value.str ""))]).getD 42
        (Value.str "") = Value.num 0 ↔
      kddRowNormal.getD 41 (Value.str "") = Value.str "normal." :=
  (kdd_is_anomaly_derivation [kddRowNormal] kddRowNormal (by decide) (by decide)).2.1

/-- C5: the NAB transformation changes at most the header: every cell value
is unchanged; with no `label` column the table passes through exactly; with a
`label` column only that name is rewritten to `is_anomaly`; and the concrete
scenario with columns timestamp, value, label and rows (t1, 5.0, 0),
(t2, 9.0, 1) produces the same rows under columns timestamp, value,
is_anomaly. -/
theorem nab_rename_only_rule (df : DataFrame) :
    (nabTransform df).rows = df.rows ∧
    ("label" ∉ df.cols → nabTransform df = df) ∧
    ("label" ∈ df.cols →
      (nabTransform df).cols =
        df.cols.map fun c => if c = "label" then "is_anomaly" else c) ∧
    nabTransform
        ⟨["timestamp", "value", "label"],
          [[Value.str "t1", Value.num 5, Value.num 0],
           [Value.str "t2", Value.num 9, Value.num 1]]⟩ =
      ⟨["timestamp", "value", "is_anomaly"],
        [[Value.str "t1", Value.num 5, Value.num 0],
         [Value.str "t2", Value.num 9, Value.num 1]]⟩ := by
  refine ⟨?_, ?_, ?_, by decide⟩
  · unfold nabTransform
    split <;> rfl
  · intro h
    unfold nabTransform
    rw [if_neg h]
  · intro h
    unfold nabTransform renameCol
    rw [if_pos h]

/-- Witness for C5 at the concrete no-label table. -/
theorem nab_rename_only_rule_witness :
    nabTransform ⟨["timestamp", "value"], [[Value.str "t1", Value.num 5]]⟩ =
      ⟨["timestamp", "value"], [[Value.str "t1", Value.num 5]]⟩ :=
  (nab_rename_only_rule ⟨["timestamp", "value"], [[Value.str "t1", Value.num 5]]⟩).2.1
    (by decide)

/-- C4: merging a non-empty sequence of same-schema tables concatenates all
rows in table order, preserving each table's internal row order with no
deduplication, so the output row count is the sum of the input row counts,
under the first table's schema. -/
theorem yahoo_merge_row_counts (dfs : List DataFrame) (c : List String)
    (hne : dfs ≠ []) (hsch : ∀ df ∈ dfs, df.cols = c) :
    (concatDFs dfs).rows = (dfs.map DataFrame.rows).flatten ∧
    (concatDFs dfs).rows.length = (dfs.map fun df => df.rows.length).sum ∧
    (concatDFs dfs).cols = c := by
  refine ⟨rfl, ?_, ?_⟩
  · rw [concatDFs_rows, List.length_flatten, List.map_map]
    rfl
  · cases dfs with
    | nil => exact absurd rfl hne
    | cons d t =>
      rw [concatDFs_cols_cons]
      exact hsch d (List.mem_cons_self d t)

/-- Witness for C4 on two concrete single-row tables with a shared schema,
with identical content in both tables (showing no deduplication). -/
theorem yahoo_merge_row_counts_witness :
    (concatDFs [⟨["timestamp", "value"], [[Value.num 1, Value.num 2]]⟩,
                ⟨["timestamp", "value"], [[Value.num 1, Value.num 2]]⟩]).rows.length =
      ([⟨["timestamp", "value"], [[Value.num 1, Value.num 2]]⟩,
        (⟨["timestamp", "value"], [[Value.num 1, Value.num 2]]⟩ : DataFrame)].map
          fun df => df.rows.length).sum :=
  (yahoo_merge_row_counts
    [⟨["timestamp", "value"], [[Value.num 1, Value.num 2]]⟩,
     ⟨["timestamp", "value"], [[Value.num 1, Value.num 2]]⟩]
    ["timestamp", "value"] (by decide) (by decide)).2.1

/-- The order of operations in `process_yahoo_folder` line 75-77: merge the
matched tables first, then apply the rename rule to the combined table. -/
def mergeThenRename (dfs : List DataFrame) : DataFrame :=
  yahooTransform (concatDFs dfs)

/-- The spec's pre-merge alternative: apply the rename rule to each matched
table, then merge. -/
def renameThenMerge (dfs : List DataFrame) : DataFrame :=
  concatDFs (dfs.map yahooTransform)

/-- C8: for every non-empty sequence of same-schema input tables, renaming
`anomaly` to `is_anomaly` in each table and then merging gives the same table
as merging first and then renaming, which is the order the code uses. -/
theorem yahoo_rename_merge_commute (dfs : List DataFrame) (c : List String)
    (hne : dfs ≠ []) (hsch : ∀ df ∈ dfs, df.cols = c) :
    renameThenMerge dfs = mergeThenRename dfs := by
  cases dfs with
  | nil => exact absurd rfl hne
  | cons d t =>
    apply DataFrame.eq_of_parts
    · show (concatDFs (yahooTransform d :: t.map yahooTransform)).cols =
        (yahooTransform (concatDFs (d :: t))).cols
      rw [concatDFs_cols_cons, yahooTransform_cols, yahooTransform_cols,
        concatDFs_cols_cons]
    · show (concatDFs ((d :: t).map yahooTransform)).rows =
        (yahooTransform (concatDFs (d :: t))).rows
      rw [concatDFs_rows, yahooTransform_rows, concatDFs_rows, List.map_map]
      congr 1
      apply List.map_congr_left
      intro x _
      exact yahooTransform_rows x

/-- Witness for C8 on a concrete two-table sequence carrying an `anomaly`
column. -/
theorem yahoo_rename_merge_commute_witness :
    renameThenMerge [⟨["value", "anomaly"], [[Value.num 3, Value.num 0]]⟩,
                     ⟨["value", "anomaly"], [[Value.num 4, Value.num 1]]⟩] =
      mergeThenRename [⟨["value", "anomaly"], [[Value.num 3, Value.num 0]]⟩,
                       ⟨["value", "anomaly"], [[Value.num 4, Value.num 1]]⟩] :=
  yahoo_rename_merge_commute
    [⟨["value", "anomaly"], [[Value.num 3, Value.num 0]]⟩,
     ⟨["value", "anomaly"], [[Value.num 4, Value.num 1]]⟩]
    ["value", "anomaly"] (by decide) (by decide)

/-- C6: for each of the three pipelines, a missing configured input root
makes that pipeline report the source-missing failure and leave its output
file untouched, while each of the other output files is exactly what its own
pipeline alone produces, independent of the failed one. -/
theorem missing_source_isolated (cfg : Config) (prev : Outputs) :
    (cfg.nabDirExists = false →
      process_nab_folder cfg.nabDirExists cfg.nabFound = PipelineResult.sourceMissing ∧
      (Script.main cfg prev).nabOut = prev.nabOut) ∧
    (cfg.yahooDirExists = false →
      process_yahoo_folder cfg.yahooDirExists cfg.yahooBenchIsDir
          cfg.yahooBenchFiles cfg.yahooRootFiles = PipelineResult.sourceMissing ∧
      (Script.main cfg prev).yahooOut = prev.yahooOut) ∧
    (cfg.kddDirExists = false →
      process_kdd_folder cfg.kddDirExists cfg.kddFileExists cfg.kddRaws =
          PipelineResult.sourceMissing ∧
      (Script.main cfg prev).kddOut = prev.kddOut) ∧
    (Script.main cfg prev).nabOut =
      writeIfProduced (process_nab_folder cfg.nabDirExists cfg.nabFound) prev.nabOut ∧
    (Script.main cfg prev).yahooOut =
      writeIfProduced (process_yahoo_folder cfg.yahooDirExists cfg.yahooBenchIsDir
        cfg.yahooBenchFiles cfg.yahooRootFiles) prev.yahooOut ∧
    (Script.main cfg prev).kddOut =
      writeIfProduced (process_kdd_folder cfg.kddDirExists cfg.kddFileExists cfg.kddRaws)
        prev.kddOut := by
  refine ⟨?_, ?_, ?_, rfl, rfl, rfl⟩
  · intro h
    have hres : process_nab_folder cfg.nabDirExists cfg.nabFound =
        PipelineResult.sourceMissing := by
      unfold process_nab_folder
      rw [if_pos h]
    exact ⟨hres, by show writeIfProduced _ _ = _; rw [hres]; rfl⟩
  · intro h
    have hres : process_yahoo_folder cfg.yahooDirExists cfg.yahooBenchIsDir
        cfg.yahooBenchFiles cfg.yahooRootFiles = PipelineResult.sourceMissing := by
      unfold process_yahoo_folder
      rw [if_pos h]
    exact ⟨hres, by show writeIfProduced _ _ = _; rw [hres]; rfl⟩
  · intro h
    have hres : process_kdd_folder cfg.kddDirExists cfg.kddFileExists cfg.kddRaws =
        PipelineResult.sourceMissing := by
      unfold process_kdd_folder
      rw [if_pos h]
    exact ⟨hres, by show writeIfProduced _ _ = _; rw [hres]; rfl⟩

/-- Witness for C6: with the NAB root missing, the NAB pipeline reports the
failure and its output file stays absent. -/
theorem missing_source_isolated_witness :
    process_nab_folder (Config.mk false none true true [] [] true true []).nabDirExists
        (Config.mk false none true true [] [] true true []).nabFound =
      PipelineResult.sourceMissing ∧
    (Script.main (Config.mk false none true true [] [] true true [])
        (Outputs.mk none none none)).nabOut = (Outputs.mk none none none).nabOut :=
  (missing_source_isolated (Config.mk false none true true [] [] true true [])
    (Outputs.mk none none none)).1 rfl

/-- C7: the Yahoo pipeline globs in the benchmark subfolder when it is a
directory and in the input root otherwise; when the chosen directory yields
zero matches the pipeline reports the no-files failure and writes nothing,
while the other two output files are exactly what their own pipelines
produce. -/
theorem yahoo_fallback_and_no_files (cfg : Config) (prev : Outputs)
    (bf rf : List DataFrame) :
    (process_yahoo_folder true true bf rf =
      if bf.isEmpty then PipelineResult.noFilesFound
      else PipelineResult.wrote (yahooTransform (concatDFs bf))) ∧
    (process_yahoo_folder true false bf rf =
      if rf.isEmpty then PipelineResult.noFilesFound
      else PipelineResult.wrote (yahooTransform (concatDFs rf))) ∧
    (cfg.yahooDirExists = true →
      (if cfg.yahooBenchIsDir then cfg.yahooBenchFiles else cfg.yahooRootFiles) = [] →
      process_yahoo_folder cfg.yahooDirExists cfg.yahooBenchIsDir
          cfg.yahooBenchFiles cfg.yahooRootFiles = PipelineResult.noFilesFound ∧
      (Script.main cfg prev).yahooOut = prev.yahooOut ∧
      (Script.main cfg prev).nabOut =
        writeIfProduced (process_nab_folder cfg.nabDirExists cfg.nabFound) prev.nabOut ∧
      (Script.main cfg prev).kddOut =
        writeIfProduced (process_kdd_folder cfg.kddDirExists cfg.kddFileExists cfg.kddRaws)
          prev.kddOut) := by
  refine ⟨rfl, rfl, ?_⟩
  intro hdir hempty
  have hres : process_yahoo_folder cfg.yahooDirExists cfg.yahooBenchIsDir
      cfg.yahooBenchFiles cfg.yahooRootFiles = PipelineResult.noFilesFound := by
    unfold process_yahoo_folder
    rw [hdir, hempty]
    rfl
  exact ⟨hres, by show writeIfProduced _ _ = _; rw [hres]; rfl, rfl, rfl⟩

/-- Witness for C7: Yahoo root exists, the benchmark subfolder is used and
matches nothing, so the pipeline aborts with the no-files failure and the
Yahoo output stays absent. -/
theorem yahoo_fallback_and_no_files_witness :
    process_yahoo_folder (Config.mk true none true true [] [] true true []).yahooDirExists
        (Config.mk true none true true [] [] true true []).yahooBenchIsDir
        (Config.mk true none true true [] [] true true []).yahooBenchFiles
        (Config.mk true none true true [] [] true true []).yahooRootFiles =
      PipelineResult.noFilesFound ∧
    (Script.main (Config.mk true none true true [] [] true true [])
        (Outputs.mk none none none)).yahooOut = (Outputs.mk none none none).yahooOut ∧
    (Script.main (Config.mk true none true true [] [] true true [])
        (Outputs.mk none none none)).nabOut =
      writeIfProduced
        (process_nab_folder (Config.mk true none true true [] [] true true []).nabDirExists
          (Config.mk true none true true [] [] true true []).nabFound)
        (Outputs.mk none none none).nabOut ∧
    (Script.main (Config.mk true none true true [] [] true true [])
        (Outputs.mk none none none)).kddOut =
      writeIfProduced
        (process_kdd_folder (Config.mk true none true true [] [] true true []).kddDirExists
          (Config.mk true none true true [] [] true true []).kddFileExists
          (Config.mk true none true true [] [] true true []).kddRaws)
        (Outputs.mk none none none).kddOut :=
  (yahoo_fallback_and_no_files (Config.mk true none true true [] [] true true [])
    (Outputs.mk none none none) [] []).2.2 rfl rfl

/-- Writing a pipeline's result twice over the same previous file content is
the same as writing it once. -/
lemma writeIfProduced_idem (r : PipelineResult) (p : Option DataFrame) :
    writeIfProduced r (writeIfProduced r p) = writeIfProduced r p := by
  cases r <;> rfl

/-- C9: the full three-pipeline run is a deterministic function of the
configured inputs, and running it twice with unchanged inputs leaves all
three output files, and hence their serialized CSV bytes, exactly as after
the first run. -/
theorem pipeline_idempotent (cfg : Config) (prev : Outputs) :
    Script.main cfg (Script.main cfg prev) = Script.main cfg prev ∧
    ((Script.main cfg (Script.main cfg prev)).nabOut.map DataFrame.toCsv =
      (Script.main cfg prev).nabOut.map DataFrame.toCsv) ∧
    ((Script.main cfg (Script.main cfg prev)).yahooOut.map DataFrame.toCsv =
      (Script.main cfg prev).yahooOut.map DataFrame.toCsv) ∧
    ((Script.main cfg (Script.main cfg prev)).kddOut.map DataFrame.toCsv =
      (Script.main cfg prev).kddOut.map DataFrame.toCsv) := by
  have h : Script.main cfg (Script.main cfg prev) = Script.main cfg prev := by
    show Outputs.mk _ _ _ = Outputs.mk _ _ _
    rw [show (Script.main cfg prev).nabOut = writeIfProduced
      (process_nab_folder cfg.nabDirExists cfg.nabFound) prev.nabOut from rfl]
    rw [show (Script.main cfg prev).yahooOut = writeIfProduced
      (process_yahoo_folder cfg.yahooDirExists cfg.yahooBenchIsDir
        cfg.yahooBenchFiles cfg.yahooRootFiles) prev.yahooOut from rfl]
    rw [show (Script.main cfg prev).kddOut = writeIfProduced
      (process_kdd_folder cfg.kddDirExists cfg.kddFileExists cfg.kddRaws) prev.kddOut
      from rfl]
    rw [writeIfProduced_idem, writeIfProduced_idem, writeIfProduced_idem]
  exact ⟨h, by rw [h], by rw [h], by rw [h]⟩

/-- C10: when the Yahoo input root exists, files were matched, and no
`anomaly` column is present in the combined table, the pipeline still writes
the combined table completely unchanged, and the written table has no
`is_anomaly` column when the inputs had none. -/
theorem yahoo_passthrough_still_written (dirE benchE : Bool)
    (bf rf : List DataFrame) (hdir : dirE = true)
    (hne : (if benchE then bf else rf) ≠ [])
    (hanom : "anomaly" ∉ (concatDFs (if benchE then bf else rf)).cols)
    (hisa : "is_anomaly" ∉ (concatDFs (if benchE then bf else rf)).cols) :
    process_yahoo_folder dirE benchE bf rf =
      PipelineResult.wrote (concatDFs (if benchE then bf else rf)) ∧
    ∀ df, process_yahoo_folder dirE benchE bf rf = PipelineResult.wrote df →
      "is_anomaly" ∉ df.cols := by
  have hres : process_yahoo_folder dirE benchE bf rf =
      PipelineResult.wrote (concatDFs (if benchE then bf else rf)) := by
    unfold process_yahoo_folder
    rw [hdir]
    rw [if_neg (by simp)]
    rw [if_neg (by rwa [List.isEmpty_iff] at *)]
    unfold yahooTransform
    rw [if_neg hanom]
  refine ⟨hres, ?_⟩
  intro df hdf
  rw [hres] at hdf
  cases hdf
  exact hisa

/-- Witness for C10 on one concrete matched file with no anomaly column. -/
theorem yahoo_passthrough_still_written_witness :
    process_yahoo_folder true true [⟨["timestamp", "value"], [[Value.num 1, Value.num 2]]⟩]
        [] =
      PipelineResult.wrote
        (concatDFs (if true then [⟨["timestamp", "value"], [[Value.num 1, Value.num 2]]⟩]
          else [])) :=
  (yahoo_passthrough_still_written true true
    [⟨["timestamp", "value"], [[Value.num 1, Value.num 2]]⟩] [] rfl (by decide)
    (by decide) (by decide)).1

/-- A name that occurs in the 43-name extended header only at position `i`,
where some raw row holds a non-numeric value, is absent from the projected
KDD output header. -/
lemma kdd_categorical_not_in_output (raws : List (List Value)) (i : Nat)
    (name : String) (r0 : List Value) (hr0 : r0 ∈ raws) (hi : i < r0.length)
    (hv : (r0.getD i (Value.str "")).isNum = false)
    (hname : name ≠ "is_anomaly")
    (huniq : ∀ j, j < (column_names ++ ["is_anomaly"]).length →
      (column_names ++ ["is_anomaly"]).getD j "" = name → j = i) :
    name ∉ (kddTransform raws).cols := by
  intro hmem
  have hmem2 : name ∈ (kddAddAnomaly (kddRead raws)).numericColNames ++ ["is_anomaly"] :=
    hmem
  rcases List.mem_append.mp hmem2 with h | h
  · refine not_mem_numericColNames (kddAddAnomaly (kddRead raws)) i name ?_ ?_ h
    · have hcols : (kddAddAnomaly (kddRead raws)).cols = column_names ++ ["is_anomaly"] :=
        rfl
      rw [hcols]
      exact huniq
    · exact kdd_isNumericAt_false raws i r0 hr0 hi hv
  · exact hname (List.mem_singleton.mp h)

/-- C3: the KDD pipeline assigns the fixed 42-name positional schema and
projects onto the numeric-dtype columns plus `is_anomaly`; for input rows
whose categorical fields (positions 1, 2, 3) and label field (position 41)
are strings, none of `protocol_type`, `service`, `flag`, `label` appears in
the output header. -/
theorem kdd_drops_categorical_columns (raws : List (List Value))
    (hne : raws ≠ [])
    (hlen : ∀ r ∈ raws, r.length = 42)
    (hcat : ∀ r ∈ raws,
      (r.getD 1 (Value.str "")).isNum = false ∧
      (r.getD 2 (Value.str "")).isNum = false ∧
      (r.getD 3 (Value.str "")).isNum = false ∧
      (r.getD 41 (Value.str "")).isNum = false) :
    column_names.length = 42 ∧
    (kddRead raws).cols = column_names ∧
    (kddTransform raws).cols =
      (kddAddAnomaly (kddRead raws)).numericColNames ++ ["is_anomaly"] ∧
    "protocol_type" ∉ (kddTransform raws).cols ∧
    "service" ∉ (kddTransform raws).cols ∧
    "flag" ∉ (kddTransform raws).cols ∧
    "label" ∉ (kddTransform raws).cols := by
  cases raws with
  | nil => exact absurd rfl hne
  | cons r0 t =>
    have hr0 : r0 ∈ r0 :: t := List.mem_cons_self r0 t
    have hlen0 := hlen r0 hr0
    obtain ⟨hc1, hc2, hc3, hc41⟩ := hcat r0 hr0
    refine ⟨by decide, rfl, rfl, ?_, ?_, ?_, ?_⟩
    · exact kdd_categorical_not_in_output (r0 :: t) 1 "protocol_type" r0 hr0 (by omega)
        hc1 (by decide) (by decide)
    · exact kdd_categorical_not_in_output (r0 :: t) 2 "service" r0 hr0 (by omega)
        hc2 (by decide) (by decide)
    · exact kdd_categorical_not_in_output (r0 :: t) 3 "flag" r0 hr0 (by omega)
        hc3 (by decide) (by decide)
    · exact kdd_categorical_not_in_output (r0 :: t) 41 "label" r0 hr0 (by omega)
        hc41 (by decide) (by decide)

/-- Witness for C3 at a concrete well-formed raw row with string categorical
fields. -/
theorem kdd_drops_categorical_columns_witness :
    "protocol_type" ∉ (kddTransform [kddRowCat]).cols :=
  (kdd_drops_categorical_columns [kddRowCat] (by decide) (by decide)
    (by decide)).2.2.2.1

/-- C1 evidence: the KDD output header names `is_anomaly` twice.  The derived
column is numeric, so `select_dtypes` lists it among `numeric_cols`, and the
projection list `numeric_cols + ['is_anomaly']` then repeats it; pandas
duplicates the column and writes both.  Evaluated on single well-formed raw
rows, one with a string label and categorical fields, one all-numeric except
the label. -/
theorem kdd_output_header_duplicates_is_anomaly :
    (kddTransform [kddRowCat]).cols.count "is_anomaly" = 2 ∧
    (kddTransform [kddRowNormal]).cols.count "is_anomaly" = 2 := by
  decide
